import Mathlib

/-
Verification of the `iso5218` linter (src/Sources/CGS1SyntaxEngine/syntax/lint_iso5218.c)
against its specification.

The linter is embedded shallowly: the candidate buffer is a `List Char`
(C `const char*`), the claimed length is a separate `Nat` (C `size_t data_len`),
and the two optional output slots `err_pos` / `err_len` are `Option Nat`
(`none` models a NULL pointer, `some v` a non-null pointer whose cell holds `v`).
The function returns the outcome code together with the final contents of the
two cells, so that writes to (and preservation of) the output slots are visible
in the result.
-/

/-- Outcome codes of the linter. The full enumeration is declared in
`gs1syntaxdictionary.h`, which is not under src; only the two codes that
`gs1_lint_iso5218` can produce are needed here. -/
inductive gs1_lint_err_t : Type where
  | GS1_LINTER_OK : gs1_lint_err_t
  | GS1_LINTER_INVALID_BIOLOGICAL_SEX_CODE : gs1_lint_err_t
  deriving DecidableEq, Repr

/-- Modelled from the spec: the outcome encoding is "a small closed set of
integer/enumerated codes, with `Ok` as a distinguished zero-like value and
every error as a distinct non-zero value" (the numeric values are assigned in
`gs1syntaxdictionary.h`, which is not under src). -/
def gs1_lint_err_t.code : gs1_lint_err_t → Nat
  | .GS1_LINTER_OK => 0
  | .GS1_LINTER_INVALID_BIOLOGICAL_SEX_CODE => 1

/-- `GS1_LINTER_UNLIKELY` is a branch-prediction hint (declared in
`gs1syntaxdictionary-utils.h`, not under src); semantically it is the
identity on its condition. -/
@[reducible] def GS1_LINTER_UNLIKELY (p : Prop) : Prop := p

/-- Modelled from the spec: `GS1_LINTER_RETURN_ERROR` (declared in
`gs1syntaxdictionary-utils.h`, not under src) populates the error-range
output slots — "when supplied, they are always populated on error" — and
returns the given error code. A `none` slot (NULL pointer) is skipped. -/
def GS1_LINTER_RETURN_ERROR (error : gs1_lint_err_t) (position length : Nat)
    (err_pos err_len : Option Nat) : gs1_lint_err_t × Option Nat × Option Nat :=
  (error, err_pos.map fun _ => position, err_len.map fun _ => length)

/-- Modelled from the spec: `GS1_LINTER_RETURN_OK` (declared in
`gs1syntaxdictionary-utils.h`, not under src) returns the success code,
leaving the output slots "untouched on success". -/
def GS1_LINTER_RETURN_OK (err_pos err_len : Option Nat) :
    gs1_lint_err_t × Option Nat × Option Nat :=
  (.GS1_LINTER_OK, err_pos, err_len)

/-- Shallow embedding of `gs1_lint_iso5218` (lint_iso5218.c, lines 52-81).
The C body is, after `assert(data)`:
if `data_len != 1`, return the error with range `(0, data_len)`;
if `data[0]` is none of `'0' '1' '2' '9'`, return the error with range `(0, 1)`;
otherwise return OK. The read `data[0]` is embedded as `data.getD 0 default`
(it is only reached when `data_len = 1`, where a well-formed buffer has a
byte at index 0). -/
def gs1_lint_iso5218 (data : List Char) (data_len : Nat)
    (err_pos err_len : Option Nat) : gs1_lint_err_t × Option Nat × Option Nat :=
  if GS1_LINTER_UNLIKELY (data_len ≠ 1) then
    GS1_LINTER_RETURN_ERROR .GS1_LINTER_INVALID_BIOLOGICAL_SEX_CODE 0 data_len
      err_pos err_len
  else if GS1_LINTER_UNLIKELY (data.getD 0 default ≠ '0' ∧ data.getD 0 default ≠ '1' ∧
      data.getD 0 default ≠ '2' ∧ data.getD 0 default ≠ '9') then
    GS1_LINTER_RETURN_ERROR .GS1_LINTER_INVALID_BIOLOGICAL_SEX_CODE 0 1
      err_pos err_len
  else
    GS1_LINTER_RETURN_OK err_pos err_len

/-- Embedding of the `assert(data)` precondition check (line 55): the candidate
pointer is `Option (List Char)`, `none` being NULL. A NULL candidate trips the
assertion — modelled as the `none` outcome, no error code is returned — and a
non-null candidate proceeds to the linter body. -/
def gs1_lint_iso5218_checked (data : Option (List Char)) (data_len : Nat)
    (err_pos err_len : Option Nat) :
    Option (gs1_lint_err_t × Option Nat × Option Nat) :=
  match data with
  | none => none
  | some d => some (gs1_lint_iso5218 d data_len err_pos err_len)

/- Concrete scenarios from the spec (section 8), as sanity checks. -/

example : (gs1_lint_iso5218 ['0'] 1 (some 5) (some 5)).1 = .GS1_LINTER_OK := by decide
example : (gs1_lint_iso5218 ['9'] 1 (some 5) (some 5)).1 = .GS1_LINTER_OK := by decide
example : gs1_lint_iso5218 ['3'] 1 (some 5) (some 5) =
    (.GS1_LINTER_INVALID_BIOLOGICAL_SEX_CODE, some 0, some 1) := by decide
example : gs1_lint_iso5218 [] 0 (some 5) (some 5) =
    (.GS1_LINTER_INVALID_BIOLOGICAL_SEX_CODE, some 0, some 0) := by decide
example : gs1_lint_iso5218 ['0', '1'] 2 (some 5) (some 5) =
    (.GS1_LINTER_INVALID_BIOLOGICAL_SEX_CODE, some 0, some 2) := by decide
example : gs1_lint_iso5218 ['/'] 1 (some 5) (some 5) =
    (.GS1_LINTER_INVALID_BIOLOGICAL_SEX_CODE, some 0, some 1) := by decide

/- Helper: the single byte read by the linter is determined by the first
`data_len` bytes of the buffer. -/

theorem getD_zero_of_take_one_eq {data data' : List Char}
    (h : data.take 1 = data'.take 1) :
    data.getD 0 default = data'.getD 0 default := by
  cases data with
  | nil => cases data' with
    | nil => rfl
    | cons b t' => simp [List.take] at h
  | cons a t => cases data' with
    | nil => simp [List.take] at h
    | cons b t' =>
      simp [List.take] at h
      simp [List.getD, h]

/-- C1: `gs1_lint_iso5218` returns `GS1_LINTER_OK` iff `data_len = 1` and the
single byte `data[0]` is one of `'0'`, `'1'`, `'2'`, `'9'`; on every other
input it returns `GS1_LINTER_INVALID_BIOLOGICAL_SEX_CODE`. -/
theorem gs1_lint_iso5218_exact_set (data : List Char) (data_len : Nat)
    (err_pos err_len : Option Nat) (hwf : data_len ≤ data.length) :
    ((gs1_lint_iso5218 data data_len err_pos err_len).1 = .GS1_LINTER_OK ↔
      data_len = 1 ∧ (data.getD 0 default = '0' ∨ data.getD 0 default = '1' ∨
        data.getD 0 default = '2' ∨ data.getD 0 default = '9')) ∧
    ((gs1_lint_iso5218 data data_len err_pos err_len).1 ≠ .GS1_LINTER_OK →
      (gs1_lint_iso5218 data data_len err_pos err_len).1 =
        .GS1_LINTER_INVALID_BIOLOGICAL_SEX_CODE) := by
  unfold gs1_lint_iso5218 GS1_LINTER_UNLIKELY
  by_cases h1 : data_len = 1
  · rw [if_neg (by simp [h1])]
    by_cases hc : data.getD 0 default ≠ '0' ∧ data.getD 0 default ≠ '1' ∧
        data.getD 0 default ≠ '2' ∧ data.getD 0 default ≠ '9'
    · rw [if_pos hc]
      constructor
      · constructor
        · intro hok
          simp [GS1_LINTER_RETURN_ERROR] at hok
        · intro hmem
          exact absurd hmem.2 (by tauto)
      · intro _
        rfl
    · rw [if_neg hc]
      constructor
      · constructor
        · intro _
          exact ⟨h1, by tauto⟩
        · intro _
          rfl
      · intro hne
        exact absurd rfl hne
  · rw [if_pos h1]
    constructor
    · constructor
      · intro hok
        simp [GS1_LINTER_RETURN_ERROR] at hok
      · intro hmem
        exact absurd hmem.1 h1
    · intro _
      rfl

/-- C1 witness: a concrete well-formed input on which the characterization is
evaluated. -/
theorem gs1_lint_iso5218_exact_set_witness :
    ((gs1_lint_iso5218 ['2'] 1 (some 5) (some 5)).1 = .GS1_LINTER_OK ↔
      1 = 1 ∧ (['2'].getD 0 default = '0' ∨ ['2'].getD 0 default = '1' ∨
        ['2'].getD 0 default = '2' ∨ ['2'].getD 0 default = '9')) ∧
    ((gs1_lint_iso5218 ['2'] 1 (some 5) (some 5)).1 ≠ .GS1_LINTER_OK →
      (gs1_lint_iso5218 ['2'] 1 (some 5) (some 5)).1 =
        .GS1_LINTER_INVALID_BIOLOGICAL_SEX_CODE) :=
  gs1_lint_iso5218_exact_set ['2'] 1 (some 5) (some 5) (by decide)

/-- C2: for every input with `data_len ≠ 1` (including 0), the linter returns
the error and, when the output slots are supplied, reports the Error Range
`(0, data_len)` — the whole input is flagged. -/
theorem gs1_lint_iso5218_range_on_length_mismatch (data : List Char)
    (data_len : Nat) (p l : Nat) (h : data_len ≠ 1) :
    gs1_lint_iso5218 data data_len (some p) (some l) =
      (.GS1_LINTER_INVALID_BIOLOGICAL_SEX_CODE, some 0, some data_len) := by
  unfold gs1_lint_iso5218 GS1_LINTER_UNLIKELY GS1_LINTER_RETURN_ERROR
  simp [h]

/-- C2 witness: the length-2 input `"01"` is flagged whole, with range (0, 2). -/
theorem gs1_lint_iso5218_range_on_length_mismatch_witness :
    gs1_lint_iso5218 ['0', '1'] 2 (some 5) (some 5) =
      (.GS1_LINTER_INVALID_BIOLOGICAL_SEX_CODE, some 0, some 2) :=
  gs1_lint_iso5218_range_on_length_mismatch ['0', '1'] 2 5 5 (by decide)

/-- C3: for every input with `data_len = 1` whose single byte is not one of
`'0'`, `'1'`, `'2'`, `'9'`, the linter returns the error and, when the output
slots are supplied, reports the Error Range `(0, 1)`. -/
theorem gs1_lint_iso5218_range_on_content_mismatch (data : List Char)
    (p l : Nat) (hwf : 1 ≤ data.length)
    (hbad : data.getD 0 default ≠ '0' ∧ data.getD 0 default ≠ '1' ∧
      data.getD 0 default ≠ '2' ∧ data.getD 0 default ≠ '9') :
    gs1_lint_iso5218 data 1 (some p) (some l) =
      (.GS1_LINTER_INVALID_BIOLOGICAL_SEX_CODE, some 0, some 1) := by
  unfold gs1_lint_iso5218 GS1_LINTER_UNLIKELY
  rw [if_neg (by simp), if_pos hbad]
  rfl

/-- C3 witness: the disallowed byte `'3'` yields the error with range (0, 1). -/
theorem gs1_lint_iso5218_range_on_content_mismatch_witness :
    gs1_lint_iso5218 ['3'] 1 (some 5) (some 5) =
      (.GS1_LINTER_INVALID_BIOLOGICAL_SEX_CODE, some 0, some 1) :=
  gs1_lint_iso5218_range_on_content_mismatch ['3'] 5 5 (by decide) (by decide)

/-- C4: the linter is total — it is a function, so each input determines
exactly one outcome — and it never reads a byte at index ≥ `data_len`: the
result depends only on the first `data_len` bytes of the buffer. -/
theorem gs1_lint_iso5218_total (data data' : List Char) (data_len : Nat)
    (err_pos err_len : Option Nat)
    (h : data.take data_len = data'.take data_len) :
    gs1_lint_iso5218 data data_len err_pos err_len =
      gs1_lint_iso5218 data' data_len err_pos err_len ∧
    ∃! r, gs1_lint_iso5218 data data_len err_pos err_len = r := by
  constructor
  · by_cases h1 : data_len = 1
    · subst h1
      have hg : data.getD 0 default = data'.getD 0 default :=
        getD_zero_of_take_one_eq h
      unfold gs1_lint_iso5218
      rw [hg]
    · unfold gs1_lint_iso5218 GS1_LINTER_UNLIKELY GS1_LINTER_RETURN_ERROR
      simp [h1]
  · exact ⟨_, rfl, fun y hy => hy.symm⟩

/-- C4 witness: buffers agreeing on their first 2 bytes give the same result,
and the result is unique. -/
theorem gs1_lint_iso5218_total_witness :
    (gs1_lint_iso5218 ['0', '1', 'x'] 2 (some 5) (some 5) =
      gs1_lint_iso5218 ['0', '1', 'y'] 2 (some 5) (some 5)) ∧
    ∃! r, gs1_lint_iso5218 ['0', '1', 'x'] 2 (some 5) (some 5) = r :=
  gs1_lint_iso5218_total ['0', '1', 'x'] ['0', '1', 'y'] 2 (some 5) (some 5)
    (by decide)

/-- C5: on every error result (with both output slots supplied) the reported
range satisfies `off + ln ≤ data_len`, the degenerate range `(0, 0)` occurs
only when `data_len = 0`, and an error is never produced without both slots
populated. -/
theorem gs1_lint_iso5218_range_invariant (data : List Char) (data_len p l : Nat)
    (herr : (gs1_lint_iso5218 data data_len (some p) (some l)).1 ≠ .GS1_LINTER_OK) :
    ∃ off ln,
      (gs1_lint_iso5218 data data_len (some p) (some l)).2.1 = some off ∧
      (gs1_lint_iso5218 data data_len (some p) (some l)).2.2 = some ln ∧
      off + ln ≤ data_len ∧ (off = 0 ∧ ln = 0 → data_len = 0) := by
  unfold gs1_lint_iso5218 GS1_LINTER_UNLIKELY at herr ⊢
  by_cases h1 : data_len = 1
  · subst h1
    rw [if_neg (by simp)] at herr ⊢
    by_cases hc : data.getD 0 default ≠ '0' ∧ data.getD 0 default ≠ '1' ∧
        data.getD 0 default ≠ '2' ∧ data.getD 0 default ≠ '9'
    · rw [if_pos hc]
      exact ⟨0, 1, rfl, rfl, by omega, by omega⟩
    · rw [if_neg hc] at herr
      exact absurd rfl herr
  · rw [if_pos h1]
    exact ⟨0, data_len, rfl, rfl, by omega, fun hz => hz.2⟩

/-- C5 witness: the error on input `"3"` carries the populated range (0, 1). -/
theorem gs1_lint_iso5218_range_invariant_witness :
    ∃ off ln,
      (gs1_lint_iso5218 ['3'] 1 (some 5) (some 5)).2.1 = some off ∧
      (gs1_lint_iso5218 ['3'] 1 (some 5) (some 5)).2.2 = some ln ∧
      off + ln ≤ 1 ∧ (off = 0 ∧ ln = 0 → 1 = 0) :=
  gs1_lint_iso5218_range_invariant ['3'] 1 5 5 (by decide)

/-- C6: when both output slots are supplied, they are written on an error
result — populated with the actual Error Range, which for this linter is
offset 0 and length `data_len` (the content-mismatch branch writes length 1,
and there `data_len = 1`) — and left completely unchanged when the result is
`GS1_LINTER_OK`. -/
theorem gs1_lint_iso5218_frame (data : List Char) (data_len p l : Nat) :
    ((gs1_lint_iso5218 data data_len (some p) (some l)).1 = .GS1_LINTER_OK →
      (gs1_lint_iso5218 data data_len (some p) (some l)).2.1 = some p ∧
      (gs1_lint_iso5218 data data_len (some p) (some l)).2.2 = some l) ∧
    ((gs1_lint_iso5218 data data_len (some p) (some l)).1 ≠ .GS1_LINTER_OK →
      (gs1_lint_iso5218 data data_len (some p) (some l)).2.1 = some 0 ∧
      (gs1_lint_iso5218 data data_len (some p) (some l)).2.2 = some data_len) := by
  unfold gs1_lint_iso5218 GS1_LINTER_UNLIKELY
  by_cases h1 : data_len = 1
  · subst h1
    rw [if_neg (by simp)]
    by_cases hc : data.getD 0 default ≠ '0' ∧ data.getD 0 default ≠ '1' ∧
        data.getD 0 default ≠ '2' ∧ data.getD 0 default ≠ '9'
    · rw [if_pos hc]
      constructor
      · intro hok
        simp [GS1_LINTER_RETURN_ERROR] at hok
      · intro _
        exact ⟨rfl, rfl⟩
    · rw [if_neg hc]
      constructor
      · intro _
        exact ⟨rfl, rfl⟩
      · intro hne
        exact absurd rfl hne
  · rw [if_pos h1]
    constructor
    · intro hok
      simp [GS1_LINTER_RETURN_ERROR] at hok
    · intro _
      exact ⟨rfl, rfl⟩

/-- C6 witness: slot behavior evaluated at the rejected input `"3"` with
slot contents 5 and 6 — the error populates the slots with the range (0, 1). -/
theorem gs1_lint_iso5218_frame_witness :
    ((gs1_lint_iso5218 ['3'] 1 (some 5) (some 6)).1 = .GS1_LINTER_OK →
      (gs1_lint_iso5218 ['3'] 1 (some 5) (some 6)).2.1 = some 5 ∧
      (gs1_lint_iso5218 ['3'] 1 (some 5) (some 6)).2.2 = some 6) ∧
    ((gs1_lint_iso5218 ['3'] 1 (some 5) (some 6)).1 ≠ .GS1_LINTER_OK →
      (gs1_lint_iso5218 ['3'] 1 (some 5) (some 6)).2.1 = some 0 ∧
      (gs1_lint_iso5218 ['3'] 1 (some 5) (some 6)).2.2 = some 1) :=
  gs1_lint_iso5218_frame ['3'] 1 5 6

/-- C7: the outcome set is closed with exactly two members — every result is
`GS1_LINTER_OK` or `GS1_LINTER_INVALID_BIOLOGICAL_SEX_CODE` — and `OK` is the
distinguished zero-valued code, distinct from every error value. -/
theorem gs1_lint_iso5218_closed_outcomes (data : List Char) (data_len : Nat)
    (err_pos err_len : Option Nat) :
    ((gs1_lint_iso5218 data data_len err_pos err_len).1 = .GS1_LINTER_OK ∨
     (gs1_lint_iso5218 data data_len err_pos err_len).1 =
       .GS1_LINTER_INVALID_BIOLOGICAL_SEX_CODE) ∧
    (∀ e : gs1_lint_err_t, e.code = 0 ↔ e = .GS1_LINTER_OK) := by
  constructor
  · unfold gs1_lint_iso5218 GS1_LINTER_UNLIKELY
    split_ifs
    · exact Or.inr rfl
    · exact Or.inr rfl
    · exact Or.inl rfl
  · intro e
    cases e
    · simp [gs1_lint_err_t.code]
    · simp [gs1_lint_err_t.code]

/-- C8: the linter is deterministic and stateless — re-running it on the same
bytes, starting from the slot state the first run left behind, reproduces the
first run's outcome and slot contents exactly. -/
theorem gs1_lint_iso5218_idempotent (data : List Char) (data_len : Nat)
    (err_pos err_len : Option Nat) :
    gs1_lint_iso5218 data data_len
        (gs1_lint_iso5218 data data_len err_pos err_len).2.1
        (gs1_lint_iso5218 data data_len err_pos err_len).2.2 =
      gs1_lint_iso5218 data data_len err_pos err_len := by
  unfold gs1_lint_iso5218 GS1_LINTER_UNLIKELY GS1_LINTER_RETURN_ERROR GS1_LINTER_RETURN_OK
  split_ifs
  · cases err_pos <;> cases err_len <;> simp
  · cases err_pos <;> cases err_len <;> simp
  · rfl

/-- C9: a NULL candidate pointer trips the assertion-style precondition check
(no error code is returned), while under the precondition `data ≠ NULL` the
assertion never fires and the linter always returns an outcome. -/
theorem gs1_lint_iso5218_null_contract (data_len : Nat)
    (err_pos err_len : Option Nat) :
    gs1_lint_iso5218_checked none data_len err_pos err_len = none ∧
    ∀ d : List Char,
      gs1_lint_iso5218_checked (some d) data_len err_pos err_len =
        some (gs1_lint_iso5218 d data_len err_pos err_len) :=
  ⟨rfl, fun _ => rfl⟩

/-- C10: when `data_len ≠ 1` the buffer bytes are never examined — any two
buffers of the same claimed length produce identical outcomes and ranges, so
the result is a function of `data_len` alone. -/
theorem gs1_lint_iso5218_len_only (data data' : List Char) (data_len : Nat)
    (err_pos err_len : Option Nat) (h : data_len ≠ 1) :
    gs1_lint_iso5218 data data_len err_pos err_len =
      gs1_lint_iso5218 data' data_len err_pos err_len := by
  unfold gs1_lint_iso5218 GS1_LINTER_UNLIKELY
  rw [if_pos h, if_pos h]

/-- C10 witness: two different length-2 buffers give the same result. -/
theorem gs1_lint_iso5218_len_only_witness :
    gs1_lint_iso5218 ['a', 'b'] 2 (some 5) (some 5) =
      gs1_lint_iso5218 ['c', 'd'] 2 (some 5) (some 5) :=
  gs1_lint_iso5218_len_only ['a', 'b'] ['c', 'd'] 2 (some 5) (some 5) (by decide)
